import Mathlib

/-!
Shallow embedding of the business-locations geospatial filter of
`backend/apps/businesses/views.py` (`haversine_distance` and
`business_locations`), together with the Python primitives the view
relies on (string truthiness, `int()` / `float()` parsing of decimal
literals, `round(x, 2)`), and proofs of the specified properties.

Numeric model: database decimals and parsed query numbers are exact
rationals; the distance computation is exact real arithmetic
(`Real.sin`, `Real.arcsin`, `Real.sqrt`); `round` is round-half-to-even
as in Python.
-/

namespace AccessRating

/-- Value of a list of decimal digit characters, most significant first. -/
def digitsVal (l : List Char) : Nat :=
  l.foldl (fun n c => n * 10 + (c.toNat - 48)) 0

/-- Python `int(s)` on a stripped character list: optional sign followed by
one or more decimal digits.  (Underscore separators and non-decimal bases,
which no caller uses, are not modelled.) -/
def pyIntCore : List Char → Option ℤ
  | [] => none
  | '+' :: rest =>
      if !rest.isEmpty && rest.all Char.isDigit then some (digitsVal rest) else none
  | '-' :: rest =>
      if !rest.isEmpty && rest.all Char.isDigit then some (-(digitsVal rest : ℤ)) else none
  | l =>
      if !l.isEmpty && l.all Char.isDigit then some (digitsVal l) else none

/-- Python `str.strip()` on a character list. -/
def pyStrip (l : List Char) : List Char :=
  ((l.dropWhile Char.isWhitespace).reverse.dropWhile Char.isWhitespace).reverse

/-- Python `int(s)`: surrounding whitespace is stripped, failure is `none`. -/
def pyInt (s : String) : Option ℤ := pyIntCore (pyStrip s.data)

/-- Magnitude part of a Python float literal: `digits`, `digits.digits`,
`digits.` or `.digits` (at least one digit overall). -/
def pyFloatMag (l : List Char) : Option ℚ :=
  let ip := l.takeWhile Char.isDigit
  let rest := l.dropWhile Char.isDigit
  match rest with
  | [] => if ip.isEmpty then none else some (mkRat (digitsVal ip) 1)
  | '.' :: fp =>
      if fp.all Char.isDigit && !(ip.isEmpty && fp.isEmpty) then
        some (mkRat (digitsVal (ip ++ fp)) (10 ^ fp.length))
      else none
  | _ => none

/-- Python `float(s)` on a stripped character list: optional sign and a
decimal magnitude.  (Exponent notation and `inf` / `nan`, which no claim
depends on, are not modelled.) -/
def pyFloatCore : List Char → Option ℚ
  | '+' :: rest => pyFloatMag rest
  | '-' :: rest => (pyFloatMag rest).map (fun q => -q)
  | l => pyFloatMag l

/-- Python `float(s)`: surrounding whitespace is stripped, failure is `none`. -/
def pyFloat (s : String) : Option ℚ := pyFloatCore (pyStrip s.data)

/-- Python truthiness of `request.GET.get(k)`: `None` and the empty string
are falsy, every other string is truthy. -/
def pyTruthy : Option String → Bool
  | none => false
  | some s => !(s == "")

/-- Python truthiness of an optional decimal column value: `None` and zero
are falsy. -/
def decTruthy : Option ℚ → Bool
  | none => false
  | some q => !(q == 0)

/-- The fields of `Business` that `business_locations` reads.  `latitude`,
`longitude` and `accessibility_level` are nullable columns. -/
structure Business where
  id : ℤ
  name : String
  description : String
  address : String
  city : String
  business_type : String
  accessibility_level : Option ℤ
  latitude : Option ℚ
  longitude : Option ℚ
  deriving DecidableEq

/-- The query parameters read by `business_locations`, as raw optional
strings (`request.GET.get`). -/
structure Params where
  min_rating : Option String
  max_rating : Option String
  business_type : Option String
  search : Option String
  lat : Option String
  lng : Option String
  radius : Option String
  deriving DecidableEq

/-- A request with every parameter absent. -/
def emptyParams : Params :=
  { min_rating := none, max_rating := none, business_type := none,
    search := none, lat := none, lng := none, radius := none }

/-- One marker record of the JSON response. -/
structure Marker where
  id : ℤ
  name : String
  latitude : ℚ
  longitude : ℚ
  address : String
  business_type : String
  accessibility_level : Option ℤ
  distance : Option ℝ

/-- Marker built from a business (the dictionary literals in the view);
`distance` is attached only on the radius-filtering path. -/
def markerWith (b : Business) (d : Option ℝ) : Marker :=
  { id := b.id, name := b.name, latitude := b.latitude.getD 0,
    longitude := b.longitude.getD 0, address := b.address,
    business_type := b.business_type,
    accessibility_level := b.accessibility_level, distance := d }

/-- `Business.objects.filter(latitude__isnull=False, longitude__isnull=False)`. -/
def coordFilter (records : List Business) : List Business :=
  records.filter fun b => b.latitude.isSome && b.longitude.isSome

/-- `accessibility_level__gte=k` (SQL `NULL >= k` is not true, so unrated
rows are excluded). -/
def ratingGe (k : ℤ) (b : Business) : Bool :=
  match b.accessibility_level with
  | some v => decide (k ≤ v)
  | none => false

/-- `accessibility_level__lte=k` (unrated rows excluded). -/
def ratingLe (k : ℤ) (b : Business) : Bool :=
  match b.accessibility_level with
  | some v => decide (v ≤ k)
  | none => false

/-- The `min_rating` block of the view: truthy parameter, `int` parse with
exceptions swallowed, range check `1 <= min_rating <= 5`. -/
def minRatingStage (p : Option String) (l : List Business) : List Business :=
  match p with
  | none => l
  | some s =>
      if s == "" then l
      else
        match pyInt s with
        | some k => if 1 ≤ k ∧ k ≤ 5 then l.filter (ratingGe k) else l
        | none => l

/-- The `max_rating` block of the view. -/
def maxRatingStage (p : Option String) (l : List Business) : List Business :=
  match p with
  | none => l
  | some s =>
      if s == "" then l
      else
        match pyInt s with
        | some k => if 1 ≤ k ∧ k ≤ 5 then l.filter (ratingLe k) else l
        | none => l

/-- The `business_type` block: truthy and different from `"all"`. -/
def typeStage (p : Option String) (l : List Business) : List Business :=
  match p with
  | none => l
  | some s => if s == "" || s == "all" then l else l.filter fun b => b.business_type == s

/-- `request.GET.get('search', '').strip()`, as characters. -/
def searchTerm (p : Option String) : List Char := pyStrip (p.getD "").data

/-- Does `needle` occur as a contiguous run inside `hay`? -/
def charsContain (needle : List Char) : List Char → Bool
  | [] => needle.isEmpty
  | c :: t => needle.isPrefixOf (c :: t) || charsContain needle t

/-- Lower-casing used by case-insensitive comparison. -/
def lowerChars (l : List Char) : List Char := l.map Char.toLower

/-- Django `field__icontains=term`: case-insensitive substring. -/
def icontains (field : String) (term : List Char) : Bool :=
  charsContain (lowerChars term) (lowerChars field.data)

/-- The disjunction of `Q` objects of the search block. -/
def matchesSearch (term : List Char) (b : Business) : Bool :=
  icontains b.name term || icontains b.description term ||
    icontains b.address term || icontains b.city term

/-- The `search` block of the view. -/
def searchStage (p : Option String) (l : List Business) : List Business :=
  let t := searchTerm p
  if t.isEmpty then l else l.filter (matchesSearch t)

/-- Every filter of the view that precedes distance handling, in source
order. -/
def applyFilters (req : Params) (records : List Business) : List Business :=
  searchStage req.search
    (typeStage req.business_type
      (maxRatingStage req.max_rating
        (minRatingStage req.min_rating (coordFilter records))))

/-- `math.radians`. -/
noncomputable def radians (x : ℝ) : ℝ := x * (Real.pi / 180)

/-- `haversine_distance` of the view, in exact real arithmetic. -/
noncomputable def haversine_distance (lat1 lon1 lat2 lon2 : ℝ) : ℝ :=
  let rlat1 := radians lat1
  let rlon1 := radians lon1
  let rlat2 := radians lat2
  let rlon2 := radians lon2
  let dlat := rlat2 - rlat1
  let dlon := rlon2 - rlon1
  let a := Real.sin (dlat / 2) ^ 2 +
    Real.cos rlat1 * Real.cos rlat2 * Real.sin (dlon / 2) ^ 2
  let c := 2 * Real.arcsin (Real.sqrt a)
  c * 3956

/-- The distance formula as the specification states it, for comparison
with the implementation. -/
noncomputable def haversineFormulaSpec (lat1 lon1 lat2 lon2 : ℝ) : ℝ :=
  2 * Real.arcsin (Real.sqrt (Real.sin ((radians lat2 - radians lat1) / 2) ^ 2 +
    Real.cos (radians lat1) * Real.cos (radians lat2) *
      Real.sin ((radians lon2 - radians lon1) / 2) ^ 2)) * 3956

open Classical in
/-- Python `round(x)`: nearest integer, ties to even. -/
noncomputable def pyRound (x : ℝ) : ℤ :=
  if Int.fract x < 1 / 2 then ⌊x⌋
  else if 1 / 2 < Int.fract x then ⌊x⌋ + 1
  else if Even ⌊x⌋ then ⌊x⌋ else ⌊x⌋ + 1

/-- Python `round(x, 2)`. -/
noncomputable def pyRound2 (x : ℝ) : ℝ := (pyRound (100 * x) : ℝ) / 100

/-- `if business.latitude and business.longitude:` inside the distance
loop — Python truthiness on the decimal columns, so a null OR ZERO
coordinate fails it. -/
def coordTruthy (b : Business) : Bool :=
  decTruthy b.latitude && decTruthy b.longitude

open Classical in
/-- One iteration of the distance loop: skip the record unless both
coordinates are truthy, compute the haversine distance from the center,
keep the record iff the distance is within the radius, annotating it with
the rounded distance. -/
noncomputable def distanceEntry (clat clng r : ℚ) (b : Business) : Option Marker :=
  if coordTruthy b then
    let d := haversine_distance (clat : ℝ) (clng : ℝ)
      ((b.latitude.getD 0 : ℚ) : ℝ) ((b.longitude.getD 0 : ℚ) : ℝ)
    if d ≤ (r : ℝ) then some (markerWith b (some (pyRound2 d))) else none
  else none

/-- The whole `business_locations` view after the initial queryset: the
four non-distance filters, then the distance branch.  The `try` around the
distance block can only fail while parsing the three floats (exact real
arithmetic never raises afterwards), in which case the `except` arm
produces the same un-annotated list as the `else` arm. -/
noncomputable def business_locations (req : Params) (records : List Business) :
    List Marker :=
  let businesses := applyFilters req records
  if pyTruthy req.lat && pyTruthy req.lng && pyTruthy req.radius then
    match pyFloat (req.lat.getD ""), pyFloat (req.lng.getD ""),
        pyFloat (req.radius.getD "") with
    | some clat, some clng, some r => businesses.filterMap (distanceEntry clat clng r)
    | _, _, _ => businesses.map fun b => markerWith b none
  else businesses.map fun b => markerWith b none

/-! ### Concrete fixtures used to instantiate the theorems -/

/-- Fixture: a rated cafe at (3, 4). -/
def bizCafe : Business :=
  { id := 1, name := "Coffee Corner", description := "Cosy cafe",
    address := "1 High St", city := "London", business_type := "cafe",
    accessibility_level := some 4, latitude := some 3, longitude := some 4 }

/-- Fixture: a business on the equator (latitude exactly 0). -/
def bizEquator : Business :=
  { id := 2, name := "Equator Shop", description := "", address := "Equator Rd",
    city := "Quito", business_type := "shop", accessibility_level := some 3,
    latitude := some 0, longitude := some 10 }

/-- Fixture: a business at (60, 10). -/
def bizFar : Business :=
  { id := 3, name := "Northern Pub", description := "", address := "North Way",
    city := "Oslo", business_type := "pub", accessibility_level := some 2,
    latitude := some 60, longitude := some 10 }

/-- Fixture: a business with coordinates but no accessibility rating. -/
def bizUnrated : Business :=
  { id := 4, name := "New Deli", description := "", address := "2 Low St",
    city := "York", business_type := "shop", accessibility_level := none,
    latitude := some 1, longitude := some 2 }

/-- Fixture: center on the cafe, radius 5 miles. -/
def reqCenterCafe : Params :=
  { emptyParams with lat := some "3", lng := some "4", radius := some "5" }

/-- Fixture: center on the equator business, radius 5 miles. -/
def reqEquator : Params :=
  { emptyParams with lat := some "0", lng := some "10", radius := some "5" }

/-- Fixture: center at (-60, 10), radius 8285.428 miles — the distance to
`bizFar` is 7912π/3 ≈ 8285.4270, inside the radius, but rounds to 8285.43. -/
def reqRound : Params :=
  { emptyParams with lat := some "-60", lng := some "10", radius := some "8285.428" }

/-- Fixture: minimum rating 3. -/
def reqMin3 : Params := { emptyParams with min_rating := some "3" }

/-- Fixture: minimum rating 2, maximum rating 4. -/
def reqMinMax : Params :=
  { emptyParams with min_rating := some "2", max_rating := some "4" }

/-- Fixture: malformed latitude with valid longitude and radius. -/
def reqBadLat : Params :=
  { emptyParams with lat := some "abc", lng := some "4", radius := some "5" }

/-- Fixture: out-of-range minimum rating. -/
def reqMin6 : Params := { emptyParams with min_rating := some "6" }

/-- Fixture: malformed minimum rating. -/
def reqBadMin : Params := { emptyParams with min_rating := some "abc" }

/-! ### Helper lemmas about the filter stages -/

theorem minRatingStage_subset (p : Option String) (l : List Business) :
    minRatingStage p l ⊆ l := by
  intro x hx
  unfold minRatingStage at hx
  split at hx
  · exact hx
  · split at hx
    · exact hx
    · split at hx
      · split at hx
        · exact List.mem_of_mem_filter hx
        · exact hx
      · exact hx

theorem maxRatingStage_subset (p : Option String) (l : List Business) :
    maxRatingStage p l ⊆ l := by
  intro x hx
  unfold maxRatingStage at hx
  split at hx
  · exact hx
  · split at hx
    · exact hx
    · split at hx
      · split at hx
        · exact List.mem_of_mem_filter hx
        · exact hx
      · exact hx

theorem typeStage_subset (p : Option String) (l : List Business) :
    typeStage p l ⊆ l := by
  intro x hx
  unfold typeStage at hx
  split at hx
  · exact hx
  · split at hx
    · exact hx
    · exact List.mem_of_mem_filter hx

theorem searchStage_subset (p : Option String) (l : List Business) :
    searchStage p l ⊆ l := by
  intro x hx
  simp only [searchStage] at hx
  split at hx
  · exact hx
  · exact List.mem_of_mem_filter hx

theorem mem_of_mem_applyFilters (req : Params) (records : List Business)
    (b : Business) (hb : b ∈ applyFilters req records) :
    b ∈ minRatingStage req.min_rating (coordFilter records) := by
  unfold applyFilters at hb
  exact maxRatingStage_subset _ _ (typeStage_subset _ _ (searchStage_subset _ _ hb))

theorem pyInt_empty : pyInt "" = none := by decide

theorem beq_empty_false_of_pyInt (s : String) (k : ℤ) (hp : pyInt s = some k) :
    (s == "") = false := by
  cases hbe : s == ""
  · rfl
  · exfalso
    rw [show s = "" from eq_of_beq hbe, pyInt_empty] at hp
    exact Option.noConfusion hp

theorem mem_minRatingStage_valid (s : String) (k : ℤ) (l : List Business)
    (b : Business) (hp : pyInt s = some k) (h1 : 1 ≤ k) (h5 : k ≤ 5)
    (hb : b ∈ minRatingStage (some s) l) : ratingGe k b = true := by
  simp only [minRatingStage, beq_empty_false_of_pyInt s k hp, hp] at hb
  rw [if_pos (show 1 ≤ k ∧ k ≤ 5 from ⟨h1, h5⟩)] at hb
  exact List.of_mem_filter hb

theorem mem_maxRatingStage_valid (s : String) (k : ℤ) (l : List Business)
    (b : Business) (hp : pyInt s = some k) (h1 : 1 ≤ k) (h5 : k ≤ 5)
    (hb : b ∈ maxRatingStage (some s) l) : ratingLe k b = true := by
  simp only [maxRatingStage, beq_empty_false_of_pyInt s k hp, hp] at hb
  rw [if_pos (show 1 ≤ k ∧ k ≤ 5 from ⟨h1, h5⟩)] at hb
  exact List.of_mem_filter hb

/-! ### Shape of the two branches of the view -/

theorem business_locations_fallback (req : Params) (records : List Business)
    (h : (pyTruthy req.lat && pyTruthy req.lng && pyTruthy req.radius) = false ∨
      pyFloat (req.lat.getD "") = none ∨ pyFloat (req.lng.getD "") = none ∨
      pyFloat (req.radius.getD "") = none) :
    business_locations req records =
      (applyFilters req records).map fun b => markerWith b none := by
  cases hc : pyTruthy req.lat && pyTruthy req.lng && pyTruthy req.radius with
  | false =>
      simp only [business_locations, hc]
      rw [if_neg (fun hf => Bool.noConfusion hf)]
  | true =>
      simp only [business_locations, hc]
      rw [if_pos trivial]
      rcases h with h | h | h | h
      · rw [h] at hc; exact Bool.noConfusion hc
      · rw [h]
      · cases e1 : pyFloat (req.lat.getD "") with
        | none => rfl
        | some q1 => rw [h]
      · cases e1 : pyFloat (req.lat.getD "") with
        | none => rfl
        | some q1 =>
            cases e2 : pyFloat (req.lng.getD "") with
            | none => rfl
            | some q2 => rw [h]

theorem business_locations_active (req : Params) (records : List Business)
    (clat clng r : ℚ)
    (hlt : pyTruthy req.lat = true) (hlnt : pyTruthy req.lng = true)
    (hrt : pyTruthy req.radius = true)
    (hplat : pyFloat (req.lat.getD "") = some clat)
    (hplng : pyFloat (req.lng.getD "") = some clng)
    (hprad : pyFloat (req.radius.getD "") = some r) :
    business_locations req records =
      (applyFilters req records).filterMap (distanceEntry clat clng r) := by
  simp only [business_locations]
  rw [if_pos (show (pyTruthy req.lat && pyTruthy req.lng && pyTruthy req.radius) = true
    by rw [hlt, hlnt, hrt]; rfl)]
  rw [hplat, hplng, hprad]

theorem distanceEntry_eq_some (clat clng r : ℚ) (b : Business) (m : Marker)
    (h : distanceEntry clat clng r b = some m) :
    coordTruthy b = true ∧
      haversine_distance (clat : ℝ) (clng : ℝ) ((b.latitude.getD 0 : ℚ) : ℝ)
        ((b.longitude.getD 0 : ℚ) : ℝ) ≤ (r : ℝ) ∧
      m = markerWith b (some (pyRound2 (haversine_distance (clat : ℝ) (clng : ℝ)
        ((b.latitude.getD 0 : ℚ) : ℝ) ((b.longitude.getD 0 : ℚ) : ℝ)))) := by
  simp only [distanceEntry] at h
  split at h
  · next hct =>
      split at h
      · next hd => exact ⟨hct, hd, (Option.some.inj h).symm⟩
      · exact Option.noConfusion h
  · exact Option.noConfusion h

theorem distanceEntry_some_of (clat clng r : ℚ) (b : Business)
    (hct : coordTruthy b = true)
    (hd : haversine_distance (clat : ℝ) (clng : ℝ) ((b.latitude.getD 0 : ℚ) : ℝ)
      ((b.longitude.getD 0 : ℚ) : ℝ) ≤ (r : ℝ)) :
    distanceEntry clat clng r b =
      some (markerWith b (some (pyRound2 (haversine_distance (clat : ℝ) (clng : ℝ)
        ((b.latitude.getD 0 : ℚ) : ℝ) ((b.longitude.getD 0 : ℚ) : ℝ))))) := by
  unfold distanceEntry
  rw [hct]
  rw [if_pos rfl]
  dsimp only
  rw [if_pos hd]

theorem business_locations_origin (req : Params) (records : List Business)
    (m : Marker) (hm : m ∈ business_locations req records) :
    ∃ b ∈ applyFilters req records, ∃ o : Option ℝ, m = markerWith b o := by
  cases hc : pyTruthy req.lat && pyTruthy req.lng && pyTruthy req.radius with
  | false =>
      rw [business_locations_fallback req records (Or.inl hc)] at hm
      rw [List.mem_map] at hm
      obtain ⟨b, hb, rfl⟩ := hm
      exact ⟨b, hb, none, rfl⟩
  | true =>
      have hsplit := hc
      simp only [Bool.and_eq_true] at hsplit
      obtain ⟨⟨hlt, hlnt⟩, hrt⟩ := hsplit
      cases e1 : pyFloat (req.lat.getD "") with
      | none =>
          rw [business_locations_fallback req records (Or.inr (Or.inl e1))] at hm
          rw [List.mem_map] at hm
          obtain ⟨b, hb, rfl⟩ := hm
          exact ⟨b, hb, none, rfl⟩
      | some q1 =>
          cases e2 : pyFloat (req.lng.getD "") with
          | none =>
              rw [business_locations_fallback req records (Or.inr (Or.inr (Or.inl e2)))] at hm
              rw [List.mem_map] at hm
              obtain ⟨b, hb, rfl⟩ := hm
              exact ⟨b, hb, none, rfl⟩
          | some q2 =>
              cases e3 : pyFloat (req.radius.getD "") with
              | none =>
                  rw [business_locations_fallback req records
                    (Or.inr (Or.inr (Or.inr e3)))] at hm
                  rw [List.mem_map] at hm
                  obtain ⟨b, hb, rfl⟩ := hm
                  exact ⟨b, hb, none, rfl⟩
              | some q3 =>
                  rw [business_locations_active req records q1 q2 q3
                    hlt hlnt hrt e1 e2 e3] at hm
                  rw [List.mem_filterMap] at hm
                  obtain ⟨b, hb, hfb⟩ := hm
                  obtain ⟨hct, hd, rfl⟩ := distanceEntry_eq_some _ _ _ _ _ hfb
                  exact ⟨b, hb, some _, rfl⟩

/-! ### Distance and rounding computations -/

theorem haversine_self (x y : ℝ) : haversine_distance x y x y = 0 := by
  unfold haversine_distance
  simp

theorem arcsin_sqrt_three_quarters :
    Real.arcsin (Real.sqrt (3 / 4)) = Real.pi / 3 := by
  have h34 : (3 : ℝ) / 4 = (Real.sqrt 3 / 2) ^ 2 := by
    rw [div_pow, Real.sq_sqrt (by norm_num : (0:ℝ) ≤ 3)]
    norm_num
  rw [h34, Real.sqrt_sq (by positivity), ← Real.sin_pi_div_three, Real.arcsin_sin]
  · linarith [Real.pi_pos]
  · linarith [Real.pi_pos]

theorem haversine_round_case :
    haversine_distance (-60) 10 60 10 = 7912 * Real.pi / 3 := by
  unfold haversine_distance radians
  dsimp only
  have e1 : ((60:ℝ) * (Real.pi / 180) - (-60:ℝ) * (Real.pi / 180)) / 2 = Real.pi / 3 := by
    ring
  have e2 : ((10:ℝ) * (Real.pi / 180) - (10:ℝ) * (Real.pi / 180)) / 2 = 0 := by ring
  rw [e1, e2, Real.sin_zero, Real.sin_pi_div_three]
  have e3 : (Real.sqrt 3 / 2) ^ 2 +
      Real.cos ((-60:ℝ) * (Real.pi / 180)) * Real.cos ((60:ℝ) * (Real.pi / 180)) *
        (0:ℝ) ^ 2 = 3 / 4 := by
    rw [div_pow, Real.sq_sqrt (by norm_num : (0:ℝ) ≤ 3)]
    ring
  rw [e3, arcsin_sqrt_three_quarters]
  ring

theorem pyRound2_zero : pyRound2 0 = 0 := by
  unfold pyRound2 pyRound
  have h : Int.fract ((100:ℝ) * 0) < 1 / 2 := by
    rw [mul_zero, Int.fract_zero]
    norm_num
  rw [if_pos h, mul_zero, Int.floor_zero]
  norm_num

theorem floor_round_case : ⌊(100:ℝ) * (7912 * Real.pi / 3)⌋ = 828542 := by
  have h1 := Real.pi_gt_d6
  have h2 := Real.pi_lt_d6
  rw [Int.floor_eq_iff]
  constructor
  · push_cast
    nlinarith
  · push_cast
    nlinarith

theorem fract_round_case :
    1 / 2 < Int.fract ((100:ℝ) * (7912 * Real.pi / 3)) := by
  have hf : Int.fract ((100:ℝ) * (7912 * Real.pi / 3)) =
      (100:ℝ) * (7912 * Real.pi / 3) - 828542 := by
    rw [Int.fract, floor_round_case]
    push_cast
    ring
  rw [hf]
  have h1 := Real.pi_gt_d6
  nlinarith

theorem pyRound2_round_case :
    pyRound2 (7912 * Real.pi / 3) = 828543 / 100 := by
  unfold pyRound2 pyRound
  rw [if_neg (not_lt.mpr (le_of_lt fract_round_case)), if_pos fract_round_case,
    floor_round_case]
  norm_num

theorem mkRat_radius_cast : ((mkRat 8285428 1000 : ℚ) : ℝ) = 8285428 / 1000 := by
  rw [Rat.mkRat_eq_div]
  push_cast
  norm_num

theorem distance_within_round_radius :
    7912 * Real.pi / 3 ≤ ((mkRat 8285428 1000 : ℚ) : ℝ) := by
  rw [mkRat_radius_cast]
  have h2 := Real.pi_lt_d6
  nlinarith

/-! ### Remaining small helpers -/

theorem option_eq_some_getD {α : Type} (o : Option α) (d : α)
    (h : o.isSome = true) : o = some (o.getD d) := by
  cases o with
  | none => exact Bool.noConfusion h
  | some a => rfl

theorem fallback_condition (req : Params)
    (h : pyTruthy req.lat = false ∨ pyTruthy req.lng = false ∨
      pyTruthy req.radius = false ∨ pyFloat (req.lat.getD "") = none ∨
      pyFloat (req.lng.getD "") = none ∨ pyFloat (req.radius.getD "") = none) :
    (pyTruthy req.lat && pyTruthy req.lng && pyTruthy req.radius) = false ∨
      pyFloat (req.lat.getD "") = none ∨ pyFloat (req.lng.getD "") = none ∨
      pyFloat (req.radius.getD "") = none := by
  rcases h with h | h | h | h | h | h
  · exact Or.inl (by rw [h]; simp)
  · exact Or.inl (by rw [h]; simp)
  · exact Or.inl (by rw [h]; simp)
  · exact Or.inr (Or.inl h)
  · exact Or.inr (Or.inr (Or.inl h))
  · exact Or.inr (Or.inr (Or.inr h))

theorem minRatingStage_invalid (s : String) (k : ℤ) (l : List Business)
    (hp : pyInt s = some k) (hk : k < 1 ∨ 5 < k) :
    minRatingStage (some s) l = l := by
  simp only [minRatingStage, hp]
  split
  · rfl
  · rw [if_neg (by rintro ⟨h1, h5⟩; rcases hk with hk | hk <;> omega)]

theorem maxRatingStage_invalid (s : String) (k : ℤ) (l : List Business)
    (hp : pyInt s = some k) (hk : k < 1 ∨ 5 < k) :
    maxRatingStage (some s) l = l := by
  simp only [maxRatingStage, hp]
  split
  · rfl
  · rw [if_neg (by rintro ⟨h1, h5⟩; rcases hk with hk | hk <;> omega)]

theorem minRatingStage_noparse (s : String) (l : List Business)
    (hp : pyInt s = none) : minRatingStage (some s) l = l := by
  simp only [minRatingStage, hp]
  split
  · rfl
  · rfl

theorem maxRatingStage_noparse (s : String) (l : List Business)
    (hp : pyInt s = none) : maxRatingStage (some s) l = l := by
  simp only [maxRatingStage, hp]
  split
  · rfl
  · rfl

theorem cafe_marker_mem :
    markerWith bizCafe (some (pyRound2 (haversine_distance ((3:ℚ):ℝ) ((4:ℚ):ℝ)
      ((3:ℚ):ℝ) ((4:ℚ):ℝ)))) ∈ business_locations reqCenterCafe [bizCafe] := by
  rw [business_locations_active reqCenterCafe [bizCafe] 3 4 5 (by decide) (by decide)
    (by decide) (by decide) (by decide) (by decide)]
  rw [List.mem_filterMap]
  refine ⟨bizCafe, by decide, ?_⟩
  have hd : haversine_distance ((3:ℚ):ℝ) ((4:ℚ):ℝ)
      ((bizCafe.latitude.getD 0 : ℚ):ℝ) ((bizCafe.longitude.getD 0 : ℚ):ℝ) ≤
      ((5:ℚ):ℝ) := by
    show haversine_distance ((3:ℚ):ℝ) ((4:ℚ):ℝ) ((3:ℚ):ℝ) ((4:ℚ):ℝ) ≤ ((5:ℚ):ℝ)
    rw [haversine_self]
    exact_mod_cast (by norm_num : (0:ℚ) ≤ 5)
  exact distanceEntry_some_of 3 4 5 bizCafe (by decide) hd

/-! ### Claim theorems -/

/-- Claim C2: for every two points in decimal degrees, `haversine_distance`
returns the great-circle distance in miles given by the reference formula:
all four coordinates converted to radians, a = sin²(Δlat/2) +
cos(lat1)·cos(lat2)·sin²(Δlon/2), distance = 2·asin(√a)·R with R = 3956. -/
theorem haversine_matches_reference_formula (lat1 lon1 lat2 lon2 : ℝ) :
    haversine_distance lat1 lon1 lat2 lon2 =
      haversineFormulaSpec lat1 lon1 lat2 lon2 := rfl

/-- Claim C8: every marker returned by `business_locations`, for any
combination of parameters, originates from a record whose latitude and
longitude are both present (non-null), and the marker carries exactly those
numeric coordinates. -/
theorem output_coords_present_numeric (req : Params) (records : List Business)
    (m : Marker) (hm : m ∈ business_locations req records) :
    ∃ b ∈ records, b.latitude = some m.latitude ∧
      b.longitude = some m.longitude := by
  obtain ⟨b, hb, o, rfl⟩ := business_locations_origin req records m hm
  have hcf : b ∈ coordFilter records :=
    minRatingStage_subset _ _ (mem_of_mem_applyFilters req records b hb)
  rw [coordFilter, List.mem_filter] at hcf
  obtain ⟨hmem, hco⟩ := hcf
  rw [Bool.and_eq_true] at hco
  exact ⟨b, hmem, option_eq_some_getD _ 0 hco.1, option_eq_some_getD _ 0 hco.2⟩

/-- Witness for C8 at a concrete input. -/
theorem output_coords_present_numeric_witness :
    ∃ b ∈ [bizCafe], b.latitude = some (markerWith bizCafe none).latitude ∧
      b.longitude = some (markerWith bizCafe none).longitude :=
  output_coords_present_numeric emptyParams [bizCafe] (markerWith bizCafe none)
    (by exact List.mem_singleton.mpr rfl)

/-- Claim C5: when `min_rating` (resp. `max_rating`) is supplied and parses
as an integer in [1,5], every marker returned by `business_locations` has an
accessibility level that is ≥ the minimum (resp. ≤ the maximum). -/
theorem rating_bounds_hold_in_output (req : Params) (records : List Business) :
    (∀ s k, req.min_rating = some s → pyInt s = some k → 1 ≤ k → k ≤ 5 →
      ∀ m ∈ business_locations req records,
        ∃ v, m.accessibility_level = some v ∧ k ≤ v) ∧
    (∀ s k, req.max_rating = some s → pyInt s = some k → 1 ≤ k → k ≤ 5 →
      ∀ m ∈ business_locations req records,
        ∃ v, m.accessibility_level = some v ∧ v ≤ k) := by
  constructor
  · intro s k hs hp h1 h5 m hm
    obtain ⟨b, hb, o, rfl⟩ := business_locations_origin req records m hm
    have hmin := mem_of_mem_applyFilters req records b hb
    rw [hs] at hmin
    have hg := mem_minRatingStage_valid s k _ b hp h1 h5 hmin
    unfold ratingGe at hg
    cases hacc : b.accessibility_level with
    | none => rw [hacc] at hg; exact Bool.noConfusion hg
    | some v =>
        rw [hacc] at hg
        exact ⟨v, hacc, of_decide_eq_true hg⟩
  · intro s k hs hp h1 h5 m hm
    obtain ⟨b, hb, o, rfl⟩ := business_locations_origin req records m hm
    unfold applyFilters at hb
    have hmax := typeStage_subset _ _ (searchStage_subset _ _ hb)
    rw [hs] at hmax
    have hg := mem_maxRatingStage_valid s k _ b hp h1 h5 hmax
    unfold ratingLe at hg
    cases hacc : b.accessibility_level with
    | none => rw [hacc] at hg; exact Bool.noConfusion hg
    | some v =>
        rw [hacc] at hg
        exact ⟨v, hacc, of_decide_eq_true hg⟩

/-- Witness for C5 at a concrete input. -/
theorem rating_bounds_hold_in_output_witness :
    ∃ v, (markerWith bizCafe none).accessibility_level = some v ∧ (2:ℤ) ≤ v :=
  (rating_bounds_hold_in_output reqMinMax [bizCafe]).1 "2" 2 rfl (by decide)
    (by decide) (by decide) (markerWith bizCafe none)
    (by exact List.mem_singleton.mpr rfl)

/-- Claim C10 (implicit): whenever `min_rating` or `max_rating` is supplied
and valid, a record with no accessibility level never appears in the output
of `business_locations` — although such a record does appear (given
coordinates) when no parameter is supplied. -/
theorem rating_filter_drops_unrated (req : Params) (records : List Business)
    (h : (∃ s k, req.min_rating = some s ∧ pyInt s = some k ∧ 1 ≤ k ∧ k ≤ 5) ∨
      (∃ s k, req.max_rating = some s ∧ pyInt s = some k ∧ 1 ≤ k ∧ k ≤ 5)) :
    (∀ m ∈ business_locations req records, m.accessibility_level ≠ none) ∧
    (∀ b ∈ records, b.accessibility_level = none → b.latitude.isSome = true →
      b.longitude.isSome = true →
      markerWith b none ∈ business_locations emptyParams records) := by
  constructor
  · intro m hm
    obtain ⟨b, hb, o, rfl⟩ := business_locations_origin req records m hm
    rcases h with ⟨s, k, hs, hp, h1, h5⟩ | ⟨s, k, hs, hp, h1, h5⟩
    · have hmin := mem_of_mem_applyFilters req records b hb
      rw [hs] at hmin
      have hg := mem_minRatingStage_valid s k _ b hp h1 h5 hmin
      intro hnone
      unfold ratingGe at hg
      rw [show b.accessibility_level = none from hnone] at hg
      exact Bool.noConfusion hg
    · unfold applyFilters at hb
      have hmax := typeStage_subset _ _ (searchStage_subset _ _ hb)
      rw [hs] at hmax
      have hg := mem_maxRatingStage_valid s k _ b hp h1 h5 hmax
      intro hnone
      unfold ratingLe at hg
      rw [show b.accessibility_level = none from hnone] at hg
      exact Bool.noConfusion hg
  · intro b hb hnone hlat hlng
    have heq : business_locations emptyParams records =
        (coordFilter records).map fun b => markerWith b none := by
      rw [business_locations_fallback emptyParams records (Or.inl rfl)]
      rfl
    rw [heq, List.mem_map]
    refine ⟨b, ?_, rfl⟩
    rw [coordFilter, List.mem_filter]
    exact ⟨hb, by rw [hlat, hlng]; rfl⟩

/-- Witness for C10 at a concrete input. -/
theorem rating_filter_drops_unrated_witness :
    (∀ m ∈ business_locations reqMin3 [bizUnrated],
      m.accessibility_level ≠ none) ∧
    markerWith bizUnrated none ∈ business_locations emptyParams [bizUnrated] :=
  ⟨(rating_filter_drops_unrated reqMin3 [bizUnrated]
      (Or.inl ⟨"3", 3, rfl, by decide, by decide, by decide⟩)).1,
   (rating_filter_drops_unrated reqMin3 [bizUnrated]
      (Or.inl ⟨"3", 3, rfl, by decide, by decide, by decide⟩)).2 bizUnrated
      (List.mem_singleton.mpr rfl) rfl rfl rfl⟩

/-- Claim C6: a `min_rating` or `max_rating` that parses as an integer
outside [1,5] is treated exactly as if the parameter were absent: the
output of `business_locations` is unchanged when the parameter is removed. -/
theorem rating_out_of_range_ignored (req : Params) (records : List Business) :
    (∀ s k, req.min_rating = some s → pyInt s = some k → (k < 1 ∨ 5 < k) →
      business_locations req records =
        business_locations { req with min_rating := none } records) ∧
    (∀ s k, req.max_rating = some s → pyInt s = some k → (k < 1 ∨ 5 < k) →
      business_locations req records =
        business_locations { req with max_rating := none } records) := by
  constructor
  · intro s k hs hp hk
    have hfilters : applyFilters req records =
        applyFilters { req with min_rating := none } records := by
      unfold applyFilters
      rw [hs, minRatingStage_invalid s k _ hp hk]
      rfl
    unfold business_locations
    rw [hfilters]
  · intro s k hs hp hk
    have hfilters : applyFilters req records =
        applyFilters { req with max_rating := none } records := by
      unfold applyFilters
      rw [hs, maxRatingStage_invalid s k _ hp hk]
      rfl
    unfold business_locations
    rw [hfilters]

/-- Witness for C6 at a concrete input. -/
theorem rating_out_of_range_ignored_witness :
    business_locations reqMin6 [bizCafe] =
      business_locations { reqMin6 with min_rating := none } [bizCafe] :=
  (rating_out_of_range_ignored reqMin6 [bizCafe]).1 "6" 6 rfl (by decide)
    (Or.inr (by decide))

/-- Claim C7: with a search term that is non-empty after trimming, a record
survives the search stage of `business_locations` iff the term occurs
case-insensitively as a substring of its name, description, address or
city; an empty (or all-whitespace) term applies no filter. -/
theorem search_filter_substring_iff (p : Option String) (l : List Business)
    (b : Business) :
    (searchTerm p ≠ [] →
      (b ∈ searchStage p l ↔ b ∈ l ∧ matchesSearch (searchTerm p) b = true)) ∧
    (searchTerm p = [] → searchStage p l = l) := by
  constructor
  · intro ht
    simp only [searchStage]
    rw [if_neg (fun hcond => ht (List.isEmpty_iff.mp hcond))]
    exact List.mem_filter
  · intro ht
    simp only [searchStage]
    rw [if_pos (List.isEmpty_iff.mpr ht)]

/-- Witness for C7 at a concrete input. -/
theorem search_filter_substring_iff_witness :
    bizCafe ∈ searchStage (some " Coffee ") [bizCafe] :=
  ((search_filter_substring_iff (some " Coffee ") [bizCafe] bizCafe).1
    (by decide)).mpr ⟨List.mem_singleton.mpr rfl, by decide⟩

/-- Claim C9: a numeric parameter that fails to parse (`min_rating`,
`max_rating`, `lat`, `lng`, `radius`) is silently treated as absent:
`business_locations` never fails and returns exactly what it returns with
the offending parameter removed. -/
theorem malformed_numeric_params_ignored (req : Params)
    (records : List Business) :
    (∀ s, req.min_rating = some s → pyInt s = none →
      business_locations req records =
        business_locations { req with min_rating := none } records) ∧
    (∀ s, req.max_rating = some s → pyInt s = none →
      business_locations req records =
        business_locations { req with max_rating := none } records) ∧
    (∀ s, req.lat = some s → pyFloat s = none →
      business_locations req records =
        business_locations { req with lat := none } records) ∧
    (∀ s, req.lng = some s → pyFloat s = none →
      business_locations req records =
        business_locations { req with lng := none } records) ∧
    (∀ s, req.radius = some s → pyFloat s = none →
      business_locations req records =
        business_locations { req with radius := none } records) := by
  refine ⟨?_, ?_, ?_, ?_, ?_⟩
  · intro s hs hp
    have hfilters : applyFilters req records =
        applyFilters { req with min_rating := none } records := by
      unfold applyFilters
      rw [hs, minRatingStage_noparse s _ hp]
      rfl
    unfold business_locations
    rw [hfilters]
  · intro s hs hp
    have hfilters : applyFilters req records =
        applyFilters { req with max_rating := none } records := by
      unfold applyFilters
      rw [hs, maxRatingStage_noparse s _ hp]
      rfl
    unfold business_locations
    rw [hfilters]
  · intro s hs hp
    have hpl : pyFloat (req.lat.getD "") = none := by rw [hs]; exact hp
    rw [business_locations_fallback req records (Or.inr (Or.inl hpl))]
    rw [business_locations_fallback { req with lat := none } records
      (Or.inl (by show (pyTruthy none && pyTruthy req.lng &&
        pyTruthy req.radius) = false; simp [pyTruthy]))]
    rfl
  · intro s hs hp
    have hpl : pyFloat (req.lng.getD "") = none := by rw [hs]; exact hp
    rw [business_locations_fallback req records (Or.inr (Or.inr (Or.inl hpl)))]
    rw [business_locations_fallback { req with lng := none } records
      (Or.inl (by show (pyTruthy req.lat && pyTruthy none &&
        pyTruthy req.radius) = false; simp [pyTruthy]))]
    rfl
  · intro s hs hp
    have hpl : pyFloat (req.radius.getD "") = none := by rw [hs]; exact hp
    rw [business_locations_fallback req records
      (Or.inr (Or.inr (Or.inr hpl)))]
    rw [business_locations_fallback { req with radius := none } records
      (Or.inl (by show (pyTruthy req.lat && pyTruthy req.lng &&
        pyTruthy none) = false; simp [pyTruthy]))]
    rfl

/-- Witness for C9 at a concrete input. -/
theorem malformed_numeric_params_ignored_witness :
    business_locations reqBadMin [bizCafe] =
      business_locations { reqBadMin with min_rating := none } [bizCafe] :=
  (malformed_numeric_params_ignored reqBadMin [bizCafe]).1 "abc" rfl (by decide)

/-- Claim C4: if any of `lat`, `lng`, `radius` is missing (absent or empty,
hence falsy) or fails to parse as a number, `business_locations` skips
distance filtering entirely and returns exactly the records selected by the
non-distance filters, none of them carrying a distance. -/
theorem invalid_distance_params_fallback (req : Params)
    (records : List Business)
    (h : pyTruthy req.lat = false ∨ pyTruthy req.lng = false ∨
      pyTruthy req.radius = false ∨ pyFloat (req.lat.getD "") = none ∨
      pyFloat (req.lng.getD "") = none ∨
      pyFloat (req.radius.getD "") = none) :
    business_locations req records =
      (applyFilters req records).map (fun b => markerWith b none) ∧
    ∀ m ∈ business_locations req records, m.distance = none := by
  have heq := business_locations_fallback req records (fallback_condition req h)
  refine ⟨heq, ?_⟩
  rw [heq]
  intro m hm
  rw [List.mem_map] at hm
  obtain ⟨b, _, rfl⟩ := hm
  rfl

/-- Witness for C4 at a concrete input. -/
theorem invalid_distance_params_fallback_witness :
    business_locations reqBadLat [bizCafe] =
      (applyFilters reqBadLat [bizCafe]).map (fun b => markerWith b none) :=
  (invalid_distance_params_fallback reqBadLat [bizCafe]
    (Or.inr (Or.inr (Or.inr (Or.inl (by decide)))))).1

/-- Claim C3 (amended): when distance filtering is active, every marker in
the output of `business_locations` carries a distance field equal to the
computed haversine distance rounded to 2 decimal places, and the unrounded
distance is ≤ the radius (the rounded field itself may exceed the radius);
when inactive, no marker carries a distance field. -/
theorem distance_annotation_policy (req : Params) (records : List Business) :
    (∀ clat clng r, pyTruthy req.lat = true → pyTruthy req.lng = true →
      pyTruthy req.radius = true →
      pyFloat (req.lat.getD "") = some clat →
      pyFloat (req.lng.getD "") = some clng →
      pyFloat (req.radius.getD "") = some r →
      ∀ m ∈ business_locations req records, ∃ d : ℝ, d ≤ (r : ℝ) ∧
        m.distance = some (pyRound2 d)) ∧
    ((pyTruthy req.lat = false ∨ pyTruthy req.lng = false ∨
      pyTruthy req.radius = false ∨ pyFloat (req.lat.getD "") = none ∨
      pyFloat (req.lng.getD "") = none ∨
      pyFloat (req.radius.getD "") = none) →
      ∀ m ∈ business_locations req records, m.distance = none) := by
  constructor
  · intro clat clng r hlt hlnt hrt hplat hplng hprad m hm
    rw [business_locations_active req records clat clng r hlt hlnt hrt
      hplat hplng hprad] at hm
    rw [List.mem_filterMap] at hm
    obtain ⟨b, hb, hfb⟩ := hm
    obtain ⟨hct, hd, rfl⟩ := distanceEntry_eq_some _ _ _ _ _ hfb
    exact ⟨_, hd, rfl⟩
  · intro h m hm
    rw [business_locations_fallback req records (fallback_condition req h)] at hm
    rw [List.mem_map] at hm
    obtain ⟨b, _, rfl⟩ := hm
    rfl

/-- Witness for C3 (amended) at a concrete input. -/
theorem distance_annotation_policy_witness :
    ∃ d : ℝ, d ≤ ((5:ℚ) : ℝ) ∧
      (markerWith bizCafe (some (pyRound2 (haversine_distance ((3:ℚ):ℝ)
        ((4:ℚ):ℝ) ((3:ℚ):ℝ) ((4:ℚ):ℝ))))).distance = some (pyRound2 d) :=
  (distance_annotation_policy reqCenterCafe [bizCafe]).1 3 4 5 (by decide)
    (by decide) (by decide) (by decide) (by decide) (by decide) _ cafe_marker_mem

/-- Counterexample to C3 as stated: with center (-60, 10), radius
`8285.428` and a record at (60, 10), the computed distance 7912π/3 ≈
8285.42704 is within the radius, but the distance field carried in the
output is the rounded value 8285.43, which exceeds the radius. -/
theorem rounded_distance_exceeds_radius :
    pyFloat "8285.428" = some (mkRat 8285428 1000) ∧
    business_locations reqRound [bizFar] =
      [markerWith bizFar (some ((828543:ℝ) / 100))] ∧
    ((mkRat 8285428 1000 : ℚ) : ℝ) < (828543:ℝ) / 100 := by
  refine ⟨by decide, ?_, ?_⟩
  · rw [business_locations_active reqRound [bizFar] (-60) 10 (mkRat 8285428 1000)
      (by decide) (by decide) (by decide) (by decide) (by decide) (by decide)]
    rw [show applyFilters reqRound [bizFar] = [bizFar] from by decide]
    have hcoords : haversine_distance ((-60:ℚ):ℝ) ((10:ℚ):ℝ)
        ((bizFar.latitude.getD 0 : ℚ):ℝ) ((bizFar.longitude.getD 0 : ℚ):ℝ) =
        7912 * Real.pi / 3 := by
      show haversine_distance ((-60:ℚ):ℝ) ((10:ℚ):ℝ) ((60:ℚ):ℝ) ((10:ℚ):ℝ) = _
      have c1 : ((-60:ℚ):ℝ) = (-60:ℝ) := by norm_num
      have c2 : ((10:ℚ):ℝ) = (10:ℝ) := by norm_num
      have c3 : ((60:ℚ):ℝ) = (60:ℝ) := by norm_num
      rw [c1, c2, c3, haversine_round_case]
    have hentry : distanceEntry (-60) 10 (mkRat 8285428 1000) bizFar =
        some (markerWith bizFar (some ((828543:ℝ) / 100))) := by
      unfold distanceEntry
      rw [if_pos (by decide : coordTruthy bizFar = true)]
      dsimp only
      rw [hcoords]
      rw [if_pos distance_within_round_radius]
      rw [pyRound2_round_case]
    simp [hentry]
  · rw [mkRat_radius_cast]
    norm_num

/-- Claim C1 (amended): when distance filtering is active, every record
that survived the non-distance filters, whose latitude and longitude are
both truthy (present and nonzero), and whose haversine distance from the
center is ≤ the radius, contributes a marker to the output of
`business_locations`, annotated with that distance rounded to 2 decimal
places. -/
theorem distance_filter_keeps_truthy_within_radius (req : Params)
    (records : List Business) (b : Business) (clat clng r : ℚ)
    (hlt : pyTruthy req.lat = true) (hlnt : pyTruthy req.lng = true)
    (hrt : pyTruthy req.radius = true)
    (hplat : pyFloat (req.lat.getD "") = some clat)
    (hplng : pyFloat (req.lng.getD "") = some clng)
    (hprad : pyFloat (req.radius.getD "") = some r)
    (hb : b ∈ applyFilters req records)
    (hct : coordTruthy b = true)
    (hd : haversine_distance (clat : ℝ) (clng : ℝ)
      ((b.latitude.getD 0 : ℚ) : ℝ) ((b.longitude.getD 0 : ℚ) : ℝ) ≤ (r : ℝ)) :
    markerWith b (some (pyRound2 (haversine_distance (clat : ℝ) (clng : ℝ)
      ((b.latitude.getD 0 : ℚ) : ℝ) ((b.longitude.getD 0 : ℚ) : ℝ)))) ∈
      business_locations req records := by
  rw [business_locations_active req records clat clng r hlt hlnt hrt
    hplat hplng hprad]
  rw [List.mem_filterMap]
  exact ⟨b, hb, distanceEntry_some_of clat clng r b hct hd⟩

/-- Witness for C1 (amended) at a concrete input. -/
theorem distance_filter_keeps_truthy_within_radius_witness :
    markerWith bizCafe (some (pyRound2 (haversine_distance ((3:ℚ):ℝ) ((4:ℚ):ℝ)
      ((3:ℚ):ℝ) ((4:ℚ):ℝ)))) ∈ business_locations reqCenterCafe [bizCafe] :=
  distance_filter_keeps_truthy_within_radius reqCenterCafe [bizCafe] bizCafe
    3 4 5 (by decide) (by decide) (by decide) (by decide) (by decide)
    (by decide) (by decide) (by decide)
    (by show haversine_distance ((3:ℚ):ℝ) ((4:ℚ):ℝ) ((3:ℚ):ℝ) ((4:ℚ):ℝ) ≤
          ((5:ℚ):ℝ)
        rw [haversine_self]
        exact_mod_cast (by norm_num : (0:ℚ) ≤ 5))

/-- Counterexample to C1 as stated: a record at (0, 10) survives every
non-distance filter and lies at distance 0 from the center (0, 10), well
inside the 5-mile radius, yet the output is empty — the loop's Python
truthiness test on the coordinates drops any record with a zero
coordinate. -/
theorem zero_latitude_dropped_within_radius :
    applyFilters reqEquator [bizEquator] = [bizEquator] ∧
    haversine_distance ((0:ℚ):ℝ) ((10:ℚ):ℝ) ((0:ℚ):ℝ) ((10:ℚ):ℝ) = 0 ∧
    (0:ℝ) ≤ ((5:ℚ):ℝ) ∧
    business_locations reqEquator [bizEquator] = [] := by
  refine ⟨by decide, haversine_self _ _,
    by exact_mod_cast (by norm_num : (0:ℚ) ≤ 5), ?_⟩
  rw [business_locations_active reqEquator [bizEquator] 0 10 5 (by decide)
    (by decide) (by decide) (by decide) (by decide) (by decide)]
  rw [show applyFilters reqEquator [bizEquator] = [bizEquator] from by decide]
  have hnone : distanceEntry 0 10 5 bizEquator = none := by
    unfold distanceEntry
    rw [if_neg (by decide : ¬(coordTruthy bizEquator = true))]
  simp only [List.filterMap_cons, hnone, List.filterMap_nil]

end AccessRating
